import Mathlib

/-!
Verification of the Token Safety Scanner backend (`src/server.js`).

The development shallowly embeds the Provider Reconciliation & Risk
Scoring Engine: holder-concentration analysis
(`analyzeHolderConcentration`, server.js lines 163-227), the risk
scoring function (`calculateRiskScore`, lines 401-488), the contract
verification lookup (`getContractVerificationStatus`, lines 279-318),
and the `/api/check-token` orchestration (lines 493-735) including the
Solana fallback path (lines 596-665) and the EVM terminal 404 branch
(lines 667-674).

Encoding conventions (JavaScript to Lean):
- a field holding a JS string that the code only ever compares to
  literals is a Lean `String`;
- a field that can be `null`/`undefined`/empty (falsy) is an
  `Option String`, with `none` standing for every falsy value;
- numeric strings that the code pipes through `parseFloat`/`parseInt`
  are embedded by their parse result: `Option ℚ` (resp. `Option ℤ`)
  where `none` stands for NaN; a missing-or-falsy field that is also
  truthiness-guarded is a nested `Option (Option _)` whose outer `none`
  is the falsy case;
- JS numbers are `ℚ`, integral scores are `ℤ`;
- `toFixed(2)` followed by `parseFloat` is modelled by exact rational
  rounding to two decimal places, half away from zero on ties (the
  rounding ECMAScript specifies for `toFixed`).
Response-display-only fields (narrative message strings, the rescaled
per-holder detail list, flags never read by the scoring path such as
`is_whitelisted` or `trading_cooldown`) are not modelled; no claim
mentions them.
-/

namespace TokenScanner

/-- Risk band returned by the holder concentration analyzer. -/
inductive HolderRisk where
  | low
  | medium
  | high
  | unknown
deriving DecidableEq

/-- Overall verdict level of a risk assessment (server.js line 485). -/
inductive RiskLevel where
  | safe
  | warning
  | danger
deriving DecidableEq

/-- Supported networks (server.js lines 68-85). -/
inductive Network where
  | ethereum
  | bsc
  | polygon
  | solana
deriving DecidableEq

/-- Risk statements pushed by `calculateRiskScore`, abstracted to tags
carrying the data interpolated into the message text. Order of
appearance in the returned list mirrors the push order in the source. -/
inductive RiskMsg where
  | honeypotDetected
  | mintActive
  | ownershipUnknown
  | ownershipNotRenounced
  | ownerCanReclaim
  | blacklistEnabled
  | highTax (buyTax sellTax : ℚ)
  | proxyContract
  | holderConcHigh
  | holderConcMedium
  | sourceNotVerified
  | lowHolderCount
  | lowLiquidity
deriving DecidableEq

/-- One entry of the ranked holder list handed to the analyzer.
`percent` is the `parseFloat(holder.percent || 0)` result: `none` when
the field is falsy or parses to NaN (the code then contributes 0). -/
structure HolderEntry where
  address : String
  balance : String
  percent : Option ℚ
  tag : Option String
deriving DecidableEq

/-- Result of `analyzeHolderConcentration` (display-only `message` and
`top10Holders` detail list omitted). -/
structure HolderAnalysis where
  available : Bool
  top10Percentage : ℚ
  isConcentrated : Bool
  risk : HolderRisk
deriving DecidableEq

/-- GoPlus security record as consumed by the scanner. Fields the
scoring/merge paths never read are omitted. `owner_address` is `none`
for null/absent/empty; `buy_tax`/`sell_tax` hold the `parseFloat`
result (`none` = NaN); `holder_count` and `lp_total_supply` have
`none` = falsy field, `some none` = truthy field parsing to NaN,
`some (some v)` = truthy field parsing to `v`. -/
structure SecurityData where
  token_name : Option String
  token_symbol : Option String
  is_honeypot : String
  is_mintable : String
  owner_address : Option String
  can_take_back_ownership : String
  is_blacklisted : String
  is_proxy : String
  buy_tax : Option ℚ
  sell_tax : Option ℚ
  holder_count : Option (Option ℤ)
  lp_total_supply : Option (Option ℚ)
  holders : List HolderEntry
deriving DecidableEq

/-- Detail block of a successful `getsourcecode` parse
(server.js lines 305-311). -/
structure VerificationDetails where
  contractName : Option String
  compilerVersion : Option String
  optimization : Bool
  license : String
deriving DecidableEq

/-- Return value of `getContractVerificationStatus`: the failure paths
return a bare `{verified:false}` (details `none`), the success path
carries the detail block. -/
structure VerificationStatus where
  verified : Bool
  details : Option VerificationDetails
deriving DecidableEq

/-- Result of `calculateRiskScore` (server.js lines 483-487). -/
structure RiskAssessment where
  score : ℤ
  level : RiskLevel
  risks : List RiskMsg
deriving DecidableEq

/-- The EVM zero address used as the renounced-ownership sentinel
(server.js line 416). -/
def zeroAddress : String := "0x0000000000000000000000000000000000000000"

/-- Holder concentration threshold constant (server.js line 118). -/
def HOLDER_CONCENTRATION_THRESHOLD : ℚ := 15

/-- Exact model of `parseFloat(x.toFixed(2))`: round to two decimal
places, ties away from zero for nonnegative inputs (ECMAScript
`toFixed` picks the larger candidate on ties). -/
def roundTo2 (q : ℚ) : ℚ := ((round (q * 100) : ℤ) : ℚ) / 100

/-- Sum of the `percent` fields of the first ten holders
(server.js lines 175-181): `parseFloat(holder.percent || 0)` of a falsy
field contributes 0. -/
def top10PercentSum (holders : List HolderEntry) : ℚ :=
  (holders.take 10).foldl (fun acc h => acc + h.percent.getD 0) 0

/-- `analyzeHolderConcentration` (server.js lines 163-227). Empty input
short-circuits to an unavailable result; otherwise the top-10 percent
sum is normalized (`< 1` means the source used fractions, multiply by
100), banded against the 50 / 15 thresholds on the unrounded value, and
reported rounded to two decimals. -/
def analyzeHolderConcentration (holders : List HolderEntry) : HolderAnalysis :=
  if holders.isEmpty then
    { available := false
      top10Percentage := 0
      isConcentrated := false
      risk := HolderRisk.unknown }
  else
    let rawSum := top10PercentSum holders
    let top10Percentage := if rawSum < 1 then rawSum * 100 else rawSum
    { available := true
      top10Percentage := roundTo2 top10Percentage
      isConcentrated := top10Percentage > HOLDER_CONCENTRATION_THRESHOLD
      risk :=
        if top10Percentage > 50 then HolderRisk.high
        else if top10Percentage > HOLDER_CONCENTRATION_THRESHOLD then HolderRisk.medium
        else HolderRisk.low }

/-- The ownership deduction guard (server.js lines 415-417): owner
address truthy, not the zero address, not null. -/
def ownerDeductCond (o : Option String) : Bool :=
  match o with
  | none => false
  | some s => decide (s ≠ "") && decide (s ≠ zeroAddress)

/-- Score after the honeypot check (server.js lines 405-408); the
running score starts at 100. -/
def scoreAfterHoneypot (sd : SecurityData) : ℤ :=
  if sd.is_honeypot = "1" then 100 - 40 else 100

/-- Score after the mintable check (server.js lines 410-413). -/
def scoreAfterMintable (sd : SecurityData) : ℤ :=
  if sd.is_mintable = "1" then scoreAfterHoneypot sd - 15 else scoreAfterHoneypot sd

/-- Score after the ownership check (server.js lines 415-425). -/
def scoreAfterOwner (sd : SecurityData) : ℤ :=
  if ownerDeductCond sd.owner_address then scoreAfterMintable sd - 10 else scoreAfterMintable sd

/-- Score after the reclaim-ownership check (server.js lines 427-430). -/
def scoreAfterReclaim (sd : SecurityData) : ℤ :=
  if sd.can_take_back_ownership = "1" then scoreAfterOwner sd - 15 else scoreAfterOwner sd

/-- Score after the blacklist check (server.js lines 432-435). -/
def scoreAfterBlacklist (sd : SecurityData) : ℤ :=
  if sd.is_blacklisted = "1" then scoreAfterReclaim sd - 20 else scoreAfterReclaim sd

/-- Score after the tax check (server.js lines 437-443):
`parseFloat(tax) || 0` compared against the 0.1 fraction. -/
def scoreAfterTax (sd : SecurityData) : ℤ :=
  if sd.buy_tax.getD 0 > 1/10 ∨ sd.sell_tax.getD 0 > 1/10 then
    scoreAfterBlacklist sd - 10
  else scoreAfterBlacklist sd

/-- Score after the proxy check (server.js lines 445-448). -/
def scoreAfterProxy (sd : SecurityData) : ℤ :=
  if sd.is_proxy = "1" then scoreAfterTax sd - 10 else scoreAfterTax sd

/-- Score after the holder-concentration deductions
(server.js lines 451-459). -/
def scoreAfterHolders (sd : SecurityData) (ha : HolderAnalysis) : ℤ :=
  if ha.available then
    if ha.risk = HolderRisk.high then scoreAfterProxy sd - 25
    else if ha.risk = HolderRisk.medium then scoreAfterProxy sd - 15
    else scoreAfterProxy sd
  else scoreAfterProxy sd

/-- Score after the verification bonus/penalty
(server.js lines 462-468): a verified contract adds 5 then clamps to
100; an explicitly unverified one subtracts 5; a null verification
object does neither. -/
def scoreAfterVerification (sd : SecurityData) (vd : Option VerificationStatus)
    (ha : HolderAnalysis) : ℤ :=
  match vd with
  | some v =>
      if v.verified then min 100 (scoreAfterHolders sd ha + 5)
      else scoreAfterHolders sd ha - 5
  | none => scoreAfterHolders sd ha

/-- Score after the low-holder-count check (server.js lines 470-473):
field truthy and `parseInt` below 100. -/
def scoreAfterHolderCount (sd : SecurityData) (vd : Option VerificationStatus)
    (ha : HolderAnalysis) : ℤ :=
  match sd.holder_count with
  | some (some n) =>
      if n < 100 then scoreAfterVerification sd vd ha - 5
      else scoreAfterVerification sd vd ha
  | _ => scoreAfterVerification sd vd ha

/-- Final running score after the low-liquidity check
(server.js lines 475-481). -/
def scoreFinal (sd : SecurityData) (vd : Option VerificationStatus)
    (ha : HolderAnalysis) : ℤ :=
  match sd.lp_total_supply with
  | some (some q) =>
      if q < 1 then scoreAfterHolderCount sd vd ha - 15
      else scoreAfterHolderCount sd vd ha
  | _ => scoreAfterHolderCount sd vd ha

/-- The score-to-level mapping applied to the unclamped running score
(server.js line 485). -/
def levelOf (s : ℤ) : RiskLevel :=
  if s ≥ 80 then RiskLevel.safe
  else if s ≥ 50 then RiskLevel.warning
  else RiskLevel.danger

/-- Ordered risk statements, one block per deduction in source order
(server.js lines 401-481). The ownership block distinguishes the
`SOLANA_OWNER_UNKNOWN` sentinel (lines 420-424). -/
def riskStatements (sd : SecurityData) (vd : Option VerificationStatus)
    (ha : HolderAnalysis) : List RiskMsg :=
  (if sd.is_honeypot = "1" then [RiskMsg.honeypotDetected] else []) ++
  (if sd.is_mintable = "1" then [RiskMsg.mintActive] else []) ++
  (if ownerDeductCond sd.owner_address then
    [if sd.owner_address = some "SOLANA_OWNER_UNKNOWN" then RiskMsg.ownershipUnknown
     else RiskMsg.ownershipNotRenounced]
   else []) ++
  (if sd.can_take_back_ownership = "1" then [RiskMsg.ownerCanReclaim] else []) ++
  (if sd.is_blacklisted = "1" then [RiskMsg.blacklistEnabled] else []) ++
  (if sd.buy_tax.getD 0 > 1/10 ∨ sd.sell_tax.getD 0 > 1/10 then
    [RiskMsg.highTax (sd.buy_tax.getD 0) (sd.sell_tax.getD 0)]
   else []) ++
  (if sd.is_proxy = "1" then [RiskMsg.proxyContract] else []) ++
  (if ha.available then
    (if ha.risk = HolderRisk.high then [RiskMsg.holderConcHigh]
     else if ha.risk = HolderRisk.medium then [RiskMsg.holderConcMedium]
     else [])
   else []) ++
  (match vd with
   | some v => if v.verified then [] else [RiskMsg.sourceNotVerified]
   | none => []) ++
  (match sd.holder_count with
   | some (some n) => if n < 100 then [RiskMsg.lowHolderCount] else []
   | _ => []) ++
  (match sd.lp_total_supply with
   | some (some q) => if q < 1 then [RiskMsg.lowLiquidity] else []
   | _ => [])

/-- `calculateRiskScore` (server.js lines 401-488): the returned score
is the running score clamped below at 0, while the level is computed
from the unclamped running score. -/
def calculateRiskScore (sd : SecurityData) (vd : Option VerificationStatus)
    (ha : HolderAnalysis) : RiskAssessment :=
  { score := max 0 (scoreFinal sd vd ha)
    level := levelOf (scoreFinal sd vd ha)
    risks := riskStatements sd vd ha }

/-- Predicate stating that at least one deduction other than the
honeypot one, worth 10 points or more (server.js lines 410-459 and
475-481), fires for the given inputs: mintable, owner present,
reclaimable ownership, blacklist, high tax, proxy, high/medium holder
concentration, or low LP supply. -/
def otherMajorPenalty (sd : SecurityData) (ha : HolderAnalysis) : Prop :=
  sd.is_mintable = "1" ∨
  ownerDeductCond sd.owner_address = true ∨
  sd.can_take_back_ownership = "1" ∨
  sd.is_blacklisted = "1" ∨
  (sd.buy_tax.getD 0 > 1/10 ∨ sd.sell_tax.getD 0 > 1/10) ∨
  sd.is_proxy = "1" ∨
  (ha.available = true ∧ (ha.risk = HolderRisk.high ∨ ha.risk = HolderRisk.medium)) ∨
  (∃ q, sd.lp_total_supply = some (some q) ∧ q < 1)

/-- Base58 alphabet test for the Solana address regex character class
`[1-9A-HJ-NP-Za-km-z]` (server.js line 146). -/
def isBase58Char (c : Char) : Bool :=
  "123456789ABCDEFGHJKLMNPQRSTUVWXYZabcdefghijkmnopqrstuvwxyz".toList.any
    (fun x => decide (x = c))

/-- `isValidSolanaAddress` (server.js lines 145-147): base58 alphabet,
length 32 to 44. -/
def isValidSolanaAddress (s : String) : Bool :=
  decide (32 ≤ s.length) && decide (s.length ≤ 44) && s.toList.all isBase58Char

/-- Success payload of `getTokenInfoFromExplorer`
(server.js lines 257-265); the payload always carries `verified: true`. -/
structure ExplorerTokenData where
  name : String
  symbol : String
  decimals : ℤ
  totalSupply : String
  contractCreator : Option String
deriving DecidableEq

/-- Parsed `getsourcecode` record (server.js lines 295-311).
`sourceCode` is `none` when the field is absent/falsy. -/
structure SourceCodeRecord where
  sourceCode : Option String
  contractName : Option String
  compilerVersion : Option String
  optimizationUsed : String
  licenseType : Option String
deriving DecidableEq

/-- Success payload of `getTokenInfoFromDexScreener`
(server.js lines 338-342). -/
structure DexInfo where
  name : String
  symbol : String
deriving DecidableEq

/-- Success payload of `getSolanaTokenOwnership`
(server.js lines 381-389); `canFreeze` in the source is exactly
`freezeAuthority != null`. `decimals`/`supply` are `none` when the
parsed mint record lacks them. -/
structure SolanaOwnership where
  mintAuthority : Option String
  freezeAuthority : Option String
  decimals : Option ℤ
  supply : Option String
deriving DecidableEq

/-- Canonical token profile built by the handler
(server.js lines 516-523). -/
structure TokenInfo where
  name : String
  symbol : String
  decimals : ℤ
  totalSupply : String
  ownerAddress : Option String
  verified : Bool
deriving DecidableEq

/-- Outcomes of the provider calls a single scan can make, each
`none` when the provider errored, timed out, or had no record — the
clients convert all failures into this "not found" shape. -/
structure ProviderOutcomes where
  explorer : Option ExplorerTokenData
  sourceCode : Option SourceCodeRecord
  goplus : Option SecurityData
  dex : Option DexInfo
  solOwnership : Option SolanaOwnership
deriving DecidableEq

/-- `getContractVerificationStatus` (server.js lines 279-318): Solana
and every failure path return a bare `{verified:false}`; a parsed
record is verified when `SourceCode` is a nonempty string. -/
def getContractVerificationStatus (network : Network)
    (fetch : Option SourceCodeRecord) : VerificationStatus :=
  if network = Network.solana then { verified := false, details := none }
  else
    match fetch with
    | some r =>
        { verified :=
            match r.sourceCode with
            | some s => !(s == "")
            | none => false
          details := some
            { contractName := r.contractName
              compilerVersion := r.compilerVersion
              optimization := r.optimizationUsed = "1"
              license := r.licenseType.getD "None" } }
    | none => { verified := false, details := none }

/-- Initial token profile (server.js lines 516-523): Unknown sentinels
and the network decimal default. -/
def initialTokenInfo (network : Network) : TokenInfo :=
  { name := "Unknown"
    symbol := "Unknown"
    decimals := if network = Network.solana then 9 else 18
    totalSupply := "0"
    ownerAddress := none
    verified := false }

/-- Token profile after the explorer metadata and verification steps
(server.js lines 530-544): explorer data, when found, overwrites
name/symbol/decimals/totalSupply and provisionally sets `verified`
(the payload carries `verified: true`); the dedicated verification
lookup then overwrites `verified` authoritatively. Solana skips both. -/
def preMergeTokenInfo (network : Network) (po : ProviderOutcomes) : TokenInfo :=
  let ti := initialTokenInfo network
  if network = Network.solana then ti
  else
    let ti :=
      match po.explorer with
      | some ed =>
          { ti with
            name := ed.name
            symbol := ed.symbol
            decimals := ed.decimals
            totalSupply := ed.totalSupply
            verified := true }
      | none => ti
    { ti with verified := (getContractVerificationStatus network po.sourceCode).verified }

/-- GoPlus name/symbol merge (server.js lines 574-582): a field is
filled from the record only while it still holds the `Unknown`
sentinel and the record field is truthy (`none` models falsy). -/
def mergeGoPlusNames (ti : TokenInfo) (sd : SecurityData) : TokenInfo :=
  let ti1 :=
    if ti.name = "Unknown" then
      match sd.token_name with
      | some t => { ti with name := t }
      | none => ti
    else ti
  if ti1.symbol = "Unknown" then
    match sd.token_symbol with
    | some t => { ti1 with symbol := t }
    | none => ti1
  else ti1

/-- Token profile updates on the Solana fallback path
(server.js lines 600-634): DexScreener naming (or the
`Unknown Solana Token` default), then supply/decimals from the mint
record when the chain query succeeded. -/
def solanaFallbackTokenInfo (ti : TokenInfo) (dex : Option DexInfo)
    (so : Option SolanaOwnership) : TokenInfo :=
  let ti1 :=
    match dex with
    | some d => { ti with name := d.name, symbol := d.symbol }
    | none => { ti with name := "Unknown Solana Token", symbol := "UNKNOWN" }
  match so with
  | some s =>
      let ti2 :=
        match s.supply with
        | some sup => { ti1 with totalSupply := sup }
        | none => ti1
      match s.decimals with
      | some d => { ti2 with decimals := d }
      | none => ti2
  | none => ti1

/-- Synthesized Solana security record (server.js lines 612-658):
benign sentinels everywhere, ownership mapped from the mint record
(`SOLANA_OWNER_UNKNOWN` when the chain query failed), freeze authority
mapped to the blacklist flag, `holder_count`/`lp_total_supply` set to
the truthy NaN-parsing string `N/A`, and an always-empty holder list. -/
def solanaFallbackSecurityData (ti : TokenInfo)
    (so : Option SolanaOwnership) : SecurityData :=
  { token_name := some ti.name
    token_symbol := some ti.symbol
    is_honeypot := "0"
    is_mintable :=
      match so with
      | some s => if s.mintAuthority ≠ none then "1" else "0"
      | none => "0"
    owner_address :=
      match so with
      | some s => s.mintAuthority
      | none => some "SOLANA_OWNER_UNKNOWN"
    can_take_back_ownership := "0"
    is_blacklisted :=
      match so with
      | some s => if s.freezeAuthority ≠ none then "1" else "0"
      | none => "0"
    is_proxy := "0"
    buy_tax := some 0
    sell_tax := some 0
    holder_count := some none
    lp_total_supply := some none
    holders := [] }

/-- Observable outcome of one `/api/check-token` scan after address
validation: either the EVM terminal `404` carrying the optional partial
profile (server.js lines 667-674), or the scored `200` response with
the data the response JSON is built from (lines 683-722). -/
inductive ScanOutcome where
  | unavailable (explorerData : Option TokenInfo)
  | ok (tokenInfo : TokenInfo) (securityData : SecurityData)
      (verification : Option VerificationStatus)
      (holderConcentration : HolderAnalysis)
      (riskAssessment : RiskAssessment)
deriving DecidableEq

/-- The `/api/check-token` handler body after validation
(server.js lines 516-725), as a function of the provider outcomes:
explorer + verification populate the profile (EVM only), a GoPlus
record is merged and scored, a GoPlus miss triggers the Solana
synthesis path or — on EVM — the terminal 404 whose payload carries
the profile only when a name was resolved. -/
def checkToken (network : Network) (po : ProviderOutcomes) : ScanOutcome :=
  let ti := preMergeTokenInfo network po
  let verificationData : Option VerificationStatus :=
    if network = Network.solana then none
    else some (getContractVerificationStatus network po.sourceCode)
  match po.goplus with
  | some sd =>
      let ti1 := mergeGoPlusNames ti sd
      let ha := analyzeHolderConcentration sd.holders
      ScanOutcome.ok ti1 sd verificationData ha
        (calculateRiskScore sd verificationData ha)
  | none =>
      if network = Network.solana then
        let ti1 := solanaFallbackTokenInfo ti po.dex po.solOwnership
        let sd := solanaFallbackSecurityData ti1 po.solOwnership
        let ha := analyzeHolderConcentration sd.holders
        ScanOutcome.ok ti1 sd verificationData ha
          (calculateRiskScore sd verificationData ha)
      else
        ScanOutcome.unavailable
          (if ti.name ≠ "Unknown" then some ti else none)

/-- Token profile of a successful scan outcome. -/
def ScanOutcome.tokenInfoOf : ScanOutcome → Option TokenInfo
  | ScanOutcome.ok ti _ _ _ _ => some ti
  | ScanOutcome.unavailable _ => none

/-- Security record of a successful scan outcome. -/
def ScanOutcome.securityDataOf : ScanOutcome → Option SecurityData
  | ScanOutcome.ok _ sd _ _ _ => some sd
  | ScanOutcome.unavailable _ => none

/-- Verification slot of a successful scan outcome. -/
def ScanOutcome.verificationOf : ScanOutcome → Option (Option VerificationStatus)
  | ScanOutcome.ok _ _ vd _ _ => some vd
  | ScanOutcome.unavailable _ => none

/-- Holder analysis of a successful scan outcome. -/
def ScanOutcome.holderConcentrationOf : ScanOutcome → Option HolderAnalysis
  | ScanOutcome.ok _ _ _ ha _ => some ha
  | ScanOutcome.unavailable _ => none

/-- Risk assessment of a successful scan outcome. -/
def ScanOutcome.riskAssessmentOf : ScanOutcome → Option RiskAssessment
  | ScanOutcome.ok _ _ _ _ ra => some ra
  | ScanOutcome.unavailable _ => none

/-- Payload of the terminal 404 outcome, `none` on a 200. -/
def ScanOutcome.unavailablePayloadOf : ScanOutcome → Option (Option TokenInfo)
  | ScanOutcome.unavailable p => some p
  | ScanOutcome.ok _ _ _ _ _ => none

/-- Owner address fed into scoring by a successful scan outcome. -/
def ScanOutcome.scoredOwnerOf (o : ScanOutcome) : Option (Option String) :=
  (o.securityDataOf).map (fun sd => sd.owner_address)

/-- A GoPlus record with every signal benign: no flag set, zero taxes,
no owner, no holder/LP data. Used as a base for concrete scenarios. -/
def benignSD : SecurityData :=
  { token_name := none
    token_symbol := none
    is_honeypot := "0"
    is_mintable := "0"
    owner_address := none
    can_take_back_ownership := "0"
    is_blacklisted := "0"
    is_proxy := "0"
    buy_tax := some 0
    sell_tax := some 0
    holder_count := none
    lp_total_supply := none
    holders := [] }

/-- Honeypot flag plus a present (non-zero, non-null) owner: exactly
one further deduction of 10. -/
def honeypotOwnerSD : SecurityData :=
  { benignSD with
    is_honeypot := "1"
    owner_address := some "0xABC0000000000000000000000000000000000001" }

/-- Honeypot flag with everything else benign. -/
def honeypotOnlySD : SecurityData :=
  { benignSD with is_honeypot := "1" }

/-- The scoring example of the specification: mintable, owner present,
everything else benign. -/
def mintableOwnerSD : SecurityData :=
  { benignSD with
    is_mintable := "1"
    owner_address := some "0xABC0000000000000000000000000000000000001" }

/-- A verified-contract verification result with no detail block. -/
def verifiedVS : VerificationStatus := { verified := true, details := none }

/-- Holder entry with a given percent value and placeholder
address/balance. -/
def mkHolder (p : ℚ) : HolderEntry :=
  { address := "0xholder0000000000000000000000000000000001"
    balance := "0"
    percent := some p
    tag := none }

/-- Provider outcomes in which every provider failed or had no record. -/
def poAllMiss : ProviderOutcomes :=
  { explorer := none, sourceCode := none, goplus := none, dex := none
    solOwnership := none }

/-- A benign GoPlus record that carries a token name and symbol. -/
def goplusNamedSD : SecurityData :=
  { benignSD with token_name := some "Pepe Token", token_symbol := some "PEPE" }

/-- Provider outcomes in which only GoPlus answered, with a named
token record. -/
def poGoplusNamed : ProviderOutcomes :=
  { poAllMiss with goplus := some goplusNamedSD }

/-- Token profile produced on the Solana fallback path when every
provider failed. -/
def solanaMissTI : TokenInfo :=
  solanaFallbackTokenInfo (initialTokenInfo Network.solana) none none

/-- Synthesized Solana record when the chain-state query failed: owner
is the `SOLANA_OWNER_UNKNOWN` sentinel. -/
def solanaSentinelSD : SecurityData :=
  solanaFallbackSecurityData solanaMissTI none

/-- The same synthesized record with the sentinel replaced by a real
(base58) mint authority address. -/
def solanaRealOwnerSD : SecurityData :=
  { solanaSentinelSD with
    owner_address := some "9xQeWvG816bUx9EPjHmaT23yvVM2ZWbrrpZb9PusVFin" }

/-! ### Step bounds for the scoring pipeline -/

theorem scoreAfterHoneypot_le (sd : SecurityData) : scoreAfterHoneypot sd ≤ 100 := by
  unfold scoreAfterHoneypot; split <;> omega

theorem scoreAfterMintable_le (sd : SecurityData) :
    scoreAfterMintable sd ≤ scoreAfterHoneypot sd := by
  unfold scoreAfterMintable; split <;> omega

theorem scoreAfterOwner_le (sd : SecurityData) :
    scoreAfterOwner sd ≤ scoreAfterMintable sd := by
  unfold scoreAfterOwner; split <;> omega

theorem scoreAfterReclaim_le (sd : SecurityData) :
    scoreAfterReclaim sd ≤ scoreAfterOwner sd := by
  unfold scoreAfterReclaim; split <;> omega

theorem scoreAfterBlacklist_le (sd : SecurityData) :
    scoreAfterBlacklist sd ≤ scoreAfterReclaim sd := by
  unfold scoreAfterBlacklist; split <;> omega

theorem scoreAfterTax_le (sd : SecurityData) :
    scoreAfterTax sd ≤ scoreAfterBlacklist sd := by
  unfold scoreAfterTax; split <;> omega

theorem scoreAfterProxy_le (sd : SecurityData) :
    scoreAfterProxy sd ≤ scoreAfterTax sd := by
  unfold scoreAfterProxy; split <;> omega

theorem scoreAfterHolders_le (sd : SecurityData) (ha : HolderAnalysis) :
    scoreAfterHolders sd ha ≤ scoreAfterProxy sd := by
  unfold scoreAfterHolders; split_ifs <;> omega

theorem scoreAfterHolders_le_100 (sd : SecurityData) (ha : HolderAnalysis) :
    scoreAfterHolders sd ha ≤ 100 :=
  le_trans (scoreAfterHolders_le sd ha) <| le_trans (scoreAfterProxy_le sd) <|
    le_trans (scoreAfterTax_le sd) <| le_trans (scoreAfterBlacklist_le sd) <|
    le_trans (scoreAfterReclaim_le sd) <| le_trans (scoreAfterOwner_le sd) <|
    le_trans (scoreAfterMintable_le sd) (scoreAfterHoneypot_le sd)

theorem scoreAfterVerification_le_add_five (sd : SecurityData)
    (vd : Option VerificationStatus) (ha : HolderAnalysis) :
    scoreAfterVerification sd vd ha ≤ scoreAfterHolders sd ha + 5 := by
  unfold scoreAfterVerification
  split
  · split <;> omega
  · omega

theorem scoreAfterVerification_le_100 (sd : SecurityData)
    (vd : Option VerificationStatus) (ha : HolderAnalysis) :
    scoreAfterVerification sd vd ha ≤ 100 := by
  have h := scoreAfterHolders_le_100 sd ha
  unfold scoreAfterVerification
  split
  · split <;> omega
  · omega

theorem scoreAfterHolderCount_le (sd : SecurityData)
    (vd : Option VerificationStatus) (ha : HolderAnalysis) :
    scoreAfterHolderCount sd vd ha ≤ scoreAfterVerification sd vd ha := by
  unfold scoreAfterHolderCount
  split
  · split <;> omega
  · omega

theorem scoreFinal_le_holderCount (sd : SecurityData)
    (vd : Option VerificationStatus) (ha : HolderAnalysis) :
    scoreFinal sd vd ha ≤ scoreAfterHolderCount sd vd ha := by
  unfold scoreFinal
  split
  · split <;> omega
  · omega

theorem scoreFinal_le_100 (sd : SecurityData) (vd : Option VerificationStatus)
    (ha : HolderAnalysis) : scoreFinal sd vd ha ≤ 100 :=
  le_trans (scoreFinal_le_holderCount sd vd ha) <|
    le_trans (scoreAfterHolderCount_le sd vd ha) (scoreAfterVerification_le_100 sd vd ha)

/-! ### Claim C1 -/

/-- Claim C1: for every input, `calculateRiskScore` returns a score in
[0,100], and the returned level agrees with the returned score under
the mapping: score ≥ 80 ↔ safe, 50 ≤ score < 80 ↔ warning,
score < 50 ↔ danger — so exactly one of the three cases holds. -/
theorem C1_score_level_consistent (sd : SecurityData) (vd : Option VerificationStatus)
    (ha : HolderAnalysis) :
    0 ≤ (calculateRiskScore sd vd ha).score ∧
    (calculateRiskScore sd vd ha).score ≤ 100 ∧
    ((calculateRiskScore sd vd ha).level = RiskLevel.safe ↔
      80 ≤ (calculateRiskScore sd vd ha).score) ∧
    ((calculateRiskScore sd vd ha).level = RiskLevel.warning ↔
      (50 ≤ (calculateRiskScore sd vd ha).score ∧
        (calculateRiskScore sd vd ha).score < 80)) ∧
    ((calculateRiskScore sd vd ha).level = RiskLevel.danger ↔
      (calculateRiskScore sd vd ha).score < 50) := by
  have h100 := scoreFinal_le_100 sd vd ha
  simp only [calculateRiskScore, levelOf]
  refine ⟨by omega, by omega, ?_, ?_, ?_⟩ <;> split_ifs with h1 h2 <;> simp <;> omega

/-! ### Claim C2 -/

/-- Claim C2 is false as stated: the honeypot flag together with the
owner-present deduction (10 points) yields the unclamped score
100 − 40 − 10 = 50, which maps to `warning`, not `danger`; and the
honeypot flag with a verified contract yields 100 − 40 + 5 = 65 > 60,
so the +5 bonus does partially offset the −40. -/
theorem C2_counterexample :
    (calculateRiskScore honeypotOwnerSD none
      (analyzeHolderConcentration [])).level = RiskLevel.warning ∧
    (calculateRiskScore honeypotOnlySD (some verifiedVS)
      (analyzeHolderConcentration [])).score = 65 := by
  constructor <;>
    norm_num [calculateRiskScore, levelOf, scoreFinal, scoreAfterHolderCount,
      scoreAfterVerification, scoreAfterHolders, scoreAfterProxy, scoreAfterTax,
      scoreAfterBlacklist, scoreAfterReclaim, scoreAfterOwner, scoreAfterMintable,
      scoreAfterHoneypot, honeypotOwnerSD, honeypotOnlySD, benignSD, verifiedVS,
      ownerDeductCond, analyzeHolderConcentration, zeroAddress,
      (by decide : ¬ (("0" : String) = "1")),
      (by decide : ¬ (("0xABC0000000000000000000000000000000000001" : String) = "")),
      (by decide : ¬ (("0xABC0000000000000000000000000000000000001" : String) =
        "0x0000000000000000000000000000000000000000"))]

/-- Claim C2 (amended): with the honeypot flag set the returned score
is at most 65 (the −40 leaves 60, and the +5 verification bonus can
raise it to 65); combined with at least one other deduction of 10 or
more the score is at most 55 and the level is never `safe` (it is
`warning` or `danger`, but can be exactly `warning`, e.g. at 50). -/
theorem C2_amended_honeypot_bounds (sd : SecurityData)
    (vd : Option VerificationStatus) (ha : HolderAnalysis)
    (hhp : sd.is_honeypot = "1") :
    (calculateRiskScore sd vd ha).score ≤ 65 ∧
    (otherMajorPenalty sd ha →
      (calculateRiskScore sd vd ha).score ≤ 55 ∧
      (calculateRiskScore sd vd ha).level ≠ RiskLevel.safe) := by
  have h60 : scoreAfterHoneypot sd = 60 := by
    unfold scoreAfterHoneypot; rw [if_pos hhp]; omega
  have hm := scoreAfterMintable_le sd
  have ho := scoreAfterOwner_le sd
  have hr := scoreAfterReclaim_le sd
  have hb := scoreAfterBlacklist_le sd
  have ht := scoreAfterTax_le sd
  have hp := scoreAfterProxy_le sd
  have hh := scoreAfterHolders_le sd ha
  have hv := scoreAfterVerification_le_add_five sd vd ha
  have hhc := scoreAfterHolderCount_le sd vd ha
  have hf := scoreFinal_le_holderCount sd vd ha
  constructor
  · simp only [calculateRiskScore]; omega
  · intro hbig
    have key : scoreFinal sd vd ha ≤ 55 := by
      rcases hbig with h | h | h | h | h | h | ⟨h1, h2⟩ | ⟨q, hq, hql⟩
      · have hd : scoreAfterMintable sd = scoreAfterHoneypot sd - 15 := by
          unfold scoreAfterMintable; rw [if_pos h]
        omega
      · have hd : scoreAfterOwner sd = scoreAfterMintable sd - 10 := by
          unfold scoreAfterOwner; rw [if_pos h]
        omega
      · have hd : scoreAfterReclaim sd = scoreAfterOwner sd - 15 := by
          unfold scoreAfterReclaim; rw [if_pos h]
        omega
      · have hd : scoreAfterBlacklist sd = scoreAfterReclaim sd - 20 := by
          unfold scoreAfterBlacklist; rw [if_pos h]
        omega
      · have hd : scoreAfterTax sd = scoreAfterBlacklist sd - 10 := by
          unfold scoreAfterTax; rw [if_pos h]
        omega
      · have hd : scoreAfterProxy sd = scoreAfterTax sd - 10 := by
          unfold scoreAfterProxy; rw [if_pos h]
        omega
      · have hd : scoreAfterHolders sd ha ≤ scoreAfterProxy sd - 15 := by
          unfold scoreAfterHolders
          rw [if_pos h1]
          rcases h2 with h2 | h2
          · rw [if_pos h2]; omega
          · rw [if_neg (by simp [h2]), if_pos h2]
        omega
      · have hd : scoreFinal sd vd ha = scoreAfterHolderCount sd vd ha - 15 := by
          unfold scoreFinal; rw [hq]; exact if_pos hql
        omega
    refine ⟨by simp only [calculateRiskScore]; omega, ?_⟩
    simp only [calculateRiskScore, levelOf]
    split_ifs with h1 h2 <;> first | (exfalso; omega) | simp

/-- Witness instantiating the amended claim C2 at the concrete
honeypot-plus-owner input, with the major-penalty hypothesis
discharged by the owner deduction. -/
theorem C2_amended_witness :
    (calculateRiskScore honeypotOwnerSD none
      (analyzeHolderConcentration [])).score ≤ 55 ∧
    (calculateRiskScore honeypotOwnerSD none
      (analyzeHolderConcentration [])).level ≠ RiskLevel.safe :=
  (C2_amended_honeypot_bounds honeypotOwnerSD none
      (analyzeHolderConcentration []) rfl).2
    (Or.inr (Or.inl (by decide)))

/-! ### Claim C3 -/

/-- Claim C3 is false as stated on the "leaves it unchanged" part: the
reported `top10Percentage` is rounded to two decimal places
(`parseFloat(top10Percentage.toFixed(2))`, server.js line 206). A
single holder with percent 1.125 sums to 1.125 ≥ 1, which the claim
says is returned unchanged, but the analyzer reports 1.13. -/
theorem C3_counterexample :
    (analyzeHolderConcentration [mkHolder (9/8)]).top10Percentage = 113/100 ∧
    (113/100 : ℚ) ≠ 9/8 := by
  constructor
  · norm_num [analyzeHolderConcentration, top10PercentSum, roundTo2, mkHolder,
      round_eq]
  · norm_num

/-- Claim C3 (amended): for every non-empty holder list the analyzer
sums the percent values of the first 10 entries, multiplies the sum by
100 when it is < 1 and keeps it as-is when it is ≥ 1, and reports that
value rounded to two decimal places; in particular a top-10 sum of
0.42 yields `top10Percentage = 42.0` and a sum of 42.0 yields 42.0. -/
theorem C3_amended_normalization :
    (∀ holders : List HolderEntry, holders ≠ [] →
      (analyzeHolderConcentration holders).top10Percentage =
        roundTo2 (if top10PercentSum holders < 1 then top10PercentSum holders * 100
          else top10PercentSum holders)) ∧
    (analyzeHolderConcentration [mkHolder (21/50)]).top10Percentage = 42 ∧
    (analyzeHolderConcentration [mkHolder 42]).top10Percentage = 42 := by
  refine ⟨?_, ?_, ?_⟩
  · intro holders h
    unfold analyzeHolderConcentration
    rw [if_neg (by simpa [List.isEmpty_iff] using h)]
  · norm_num [analyzeHolderConcentration, top10PercentSum, roundTo2, mkHolder,
      round_eq]
  · norm_num [analyzeHolderConcentration, top10PercentSum, roundTo2, mkHolder,
      round_eq]

/-- Witness instantiating the universally quantified part of the
amended claim C3 at a concrete one-element holder list. -/
theorem C3_amended_witness :
    (analyzeHolderConcentration [mkHolder (9/8)]).top10Percentage =
      roundTo2 (if top10PercentSum [mkHolder (9/8)] < 1 then
        top10PercentSum [mkHolder (9/8)] * 100
        else top10PercentSum [mkHolder (9/8)]) :=
  C3_amended_normalization.1 [mkHolder (9/8)] (List.cons_ne_nil _ _)

/-! ### Claim C4 -/

/-- Claim C4: an empty holder list yields an unavailable analysis with
risk `unknown` (server.js lines 164-172), and every Solana fallback
scan (GoPlus miss) synthesizes an empty holder list, so its holder
concentration is exactly that unavailable analysis — never a computed
0 percent with `low` risk. -/
theorem C4_empty_holder_analysis :
    (analyzeHolderConcentration []).available = false ∧
    (analyzeHolderConcentration []).risk = HolderRisk.unknown ∧
    (analyzeHolderConcentration []).risk ≠ HolderRisk.low ∧
    ∀ po : ProviderOutcomes, po.goplus = none →
      (checkToken Network.solana po).holderConcentrationOf =
        some (analyzeHolderConcentration []) := by
  refine ⟨rfl, rfl, by decide, ?_⟩
  intro po hg
  rcases po with ⟨exp, src, gp, dex, so⟩
  simp only at hg
  subst hg
  simp [checkToken, ScanOutcome.holderConcentrationOf, solanaFallbackSecurityData]

/-- Witness instantiating claim C4 at the all-providers-missing
outcome. -/
theorem C4_witness :
    (checkToken Network.solana poAllMiss).holderConcentrationOf =
      some (analyzeHolderConcentration []) :=
  C4_empty_holder_analysis.2.2.2 poAllMiss rfl

/-! ### Claim C5 -/

/-- Claim C5: the specification's worked example — mintable flag set,
owner present, verified contract, holder analysis unavailable,
everything else benign — scores 100 − 15 − 10 + 5 = 80 and maps to
`safe`. -/
theorem C5_scoring_example :
    (calculateRiskScore mintableOwnerSD (some verifiedVS)
      (analyzeHolderConcentration [])).score = 80 ∧
    (calculateRiskScore mintableOwnerSD (some verifiedVS)
      (analyzeHolderConcentration [])).level = RiskLevel.safe := by
  constructor <;>
    norm_num [calculateRiskScore, levelOf, scoreFinal, scoreAfterHolderCount,
      scoreAfterVerification, scoreAfterHolders, scoreAfterProxy, scoreAfterTax,
      scoreAfterBlacklist, scoreAfterReclaim, scoreAfterOwner, scoreAfterMintable,
      scoreAfterHoneypot, mintableOwnerSD, benignSD, verifiedVS,
      ownerDeductCond, analyzeHolderConcentration, zeroAddress,
      (by decide : ¬ (("0" : String) = "1")),
      (by decide : ¬ (("0xABC0000000000000000000000000000000000001" : String) = "")),
      (by decide : ¬ (("0xABC0000000000000000000000000000000000001" : String) =
        "0x0000000000000000000000000000000000000000"))]

/-! ### Claim C6 -/

/-- Claim C6: the GoPlus merge step fills `name`/`symbol` only while
they still hold the `Unknown` sentinel, and never changes `decimals`,
`totalSupply`, `verified` (or `ownerAddress`) — those fields pass
through unchanged for every input. -/
theorem C6_merge_frame (ti : TokenInfo) (sd : SecurityData) :
    (mergeGoPlusNames ti sd).decimals = ti.decimals ∧
    (mergeGoPlusNames ti sd).totalSupply = ti.totalSupply ∧
    (mergeGoPlusNames ti sd).verified = ti.verified ∧
    (mergeGoPlusNames ti sd).ownerAddress = ti.ownerAddress ∧
    (ti.name ≠ "Unknown" → (mergeGoPlusNames ti sd).name = ti.name) ∧
    (ti.symbol ≠ "Unknown" → (mergeGoPlusNames ti sd).symbol = ti.symbol) ∧
    (ti.name = "Unknown" → ∀ t, sd.token_name = some t →
      (mergeGoPlusNames ti sd).name = t) ∧
    (ti.symbol = "Unknown" → ∀ t, sd.token_symbol = some t →
      (mergeGoPlusNames ti sd).symbol = t) := by
  unfold mergeGoPlusNames
  cases htn : sd.token_name <;> cases hts : sd.token_symbol <;>
    by_cases hn : ti.name = "Unknown" <;> by_cases hs : ti.symbol = "Unknown" <;>
    simp_all

/-- Witness instantiating claim C6 at a concrete profile whose fields
are all resolved, with a named GoPlus record. -/
theorem C6_witness :
    (mergeGoPlusNames (initialTokenInfo Network.bsc) goplusNamedSD).decimals =
      (initialTokenInfo Network.bsc).decimals ∧
    (mergeGoPlusNames (initialTokenInfo Network.bsc) goplusNamedSD).name =
      "Pepe Token" :=
  ⟨(C6_merge_frame (initialTokenInfo Network.bsc) goplusNamedSD).1,
    (C6_merge_frame (initialTokenInfo Network.bsc) goplusNamedSD).2.2.2.2.2.2.1 rfl
      "Pepe Token" rfl⟩

/-! ### Claim C7 -/

/-- Claim C7: an EVM scan in which the security-heuristics provider
has no record terminates in the `unavailable` outcome, whose payload
carries the assembled partial profile exactly when a name was resolved
(server.js lines 667-674); a Solana scan never produces that terminal
outcome. -/
theorem C7_terminal_unavailable :
    (∀ (net : Network) (po : ProviderOutcomes), net ≠ Network.solana →
      po.goplus = none →
      (checkToken net po).unavailablePayloadOf =
        some (if (preMergeTokenInfo net po).name ≠ "Unknown" then
          some (preMergeTokenInfo net po) else none)) ∧
    (∀ po : ProviderOutcomes,
      (checkToken Network.solana po).unavailablePayloadOf = none) := by
  constructor
  · intro net po hnet hg
    rcases po with ⟨exp, src, gp, dex, so⟩
    simp only at hg
    subst hg
    simp [checkToken, ScanOutcome.unavailablePayloadOf, hnet]
  · intro po
    rcases po with ⟨exp, src, gp, dex, so⟩
    cases gp <;> simp [checkToken, ScanOutcome.unavailablePayloadOf]

/-- Witness instantiating claim C7: an Ethereum scan with no GoPlus
record is terminal, a Solana scan with no providers at all is not. -/
theorem C7_witness :
    (checkToken Network.ethereum poAllMiss).unavailablePayloadOf =
      some (if (preMergeTokenInfo Network.ethereum poAllMiss).name ≠ "Unknown" then
        some (preMergeTokenInfo Network.ethereum poAllMiss) else none) ∧
    (checkToken Network.solana poAllMiss).unavailablePayloadOf = none :=
  ⟨C7_terminal_unavailable.1 Network.ethereum poAllMiss (by decide) rfl,
    C7_terminal_unavailable.2 poAllMiss⟩

/-! ### Claim C8 -/

/-- Claim C8: on an EVM scan where the explorer calls fail but GoPlus
returns a record, the token name and symbol are populated from the
record (falling back to the `Unknown` sentinel only when the record
itself lacks them), and the verification result is the bare
`{verified:false}` object — never null for EVM networks. -/
theorem C8_explorer_down_goplus_up (net : Network) (po : ProviderOutcomes)
    (sd : SecurityData) (hnet : net ≠ Network.solana) (hexp : po.explorer = none)
    (hsrc : po.sourceCode = none) (hgp : po.goplus = some sd) :
    (checkToken net po).verificationOf =
      some (some { verified := false, details := none }) ∧
    ∃ ti, (checkToken net po).tokenInfoOf = some ti ∧
      ti.name = sd.token_name.getD "Unknown" ∧
      ti.symbol = sd.token_symbol.getD "Unknown" := by
  rcases po with ⟨exp, src, gp, dex, so⟩
  simp only at hexp hsrc hgp
  subst hexp
  subst hsrc
  subst hgp
  constructor
  · simp [checkToken, ScanOutcome.verificationOf,
      getContractVerificationStatus, hnet]
  · refine ⟨mergeGoPlusNames (preMergeTokenInfo net
        { explorer := none
          sourceCode := none
          goplus := some sd
          dex := dex
          solOwnership := so }) sd, ?_, ?_, ?_⟩
    · simp [checkToken, ScanOutcome.tokenInfoOf]
    · cases htn : sd.token_name <;> cases hts : sd.token_symbol <;>
        simp [preMergeTokenInfo, initialTokenInfo, mergeGoPlusNames,
          getContractVerificationStatus, hnet, htn, hts]
    · cases htn : sd.token_name <;> cases hts : sd.token_symbol <;>
        simp [preMergeTokenInfo, initialTokenInfo, mergeGoPlusNames,
          getContractVerificationStatus, hnet, htn, hts]

/-- Witness instantiating claim C8 on BSC with only GoPlus answering,
carrying a named record. -/
theorem C8_witness :
    (checkToken Network.bsc poGoplusNamed).verificationOf =
      some (some { verified := false, details := none }) ∧
    ∃ ti, (checkToken Network.bsc poGoplusNamed).tokenInfoOf = some ti ∧
      ti.name = goplusNamedSD.token_name.getD "Unknown" ∧
      ti.symbol = goplusNamedSD.token_symbol.getD "Unknown" :=
  C8_explorer_down_goplus_up Network.bsc poGoplusNamed goplusNamedSD
    (by decide) rfl rfl rfl

/-! ### Claim C9 -/

/-- Claim C9 is false on its "reduced penalty" part: the
`SOLANA_OWNER_UNKNOWN` sentinel receives exactly the same −10
ownership deduction as a real owner address (server.js lines 415-425
deduct 10 in both branches and differ only in the pushed message), so
the synthesized-failure record and the same record with a real owner
score identically (90). -/
theorem C9_counterexample :
    (calculateRiskScore solanaSentinelSD none
        (analyzeHolderConcentration [])).score =
      (calculateRiskScore solanaRealOwnerSD none
        (analyzeHolderConcentration [])).score ∧
    (calculateRiskScore solanaSentinelSD none
        (analyzeHolderConcentration [])).score = 90 := by
  constructor <;>
    norm_num [calculateRiskScore, levelOf, scoreFinal, scoreAfterHolderCount,
      scoreAfterVerification, scoreAfterHolders, scoreAfterProxy, scoreAfterTax,
      scoreAfterBlacklist, scoreAfterReclaim, scoreAfterOwner, scoreAfterMintable,
      scoreAfterHoneypot, solanaSentinelSD, solanaRealOwnerSD,
      solanaFallbackSecurityData, solanaMissTI, solanaFallbackTokenInfo,
      initialTokenInfo, ownerDeductCond, analyzeHolderConcentration, zeroAddress,
      (by decide : ¬ (("0" : String) = "1")),
      (by decide : ¬ (("SOLANA_OWNER_UNKNOWN" : String) = "")),
      (by decide : ¬ (("SOLANA_OWNER_UNKNOWN" : String) =
        "0x0000000000000000000000000000000000000000")),
      (by decide : ¬ (("9xQeWvG816bUx9EPjHmaT23yvVM2ZWbrrpZb9PusVFin" : String) = "")),
      (by decide : ¬ (("9xQeWvG816bUx9EPjHmaT23yvVM2ZWbrrpZb9PusVFin" : String) =
        "0x0000000000000000000000000000000000000000"))]

/-- Claim C9 (amended): when the Solana chain-state query fails the
synthesized record's owner is the `SOLANA_OWNER_UNKNOWN` sentinel —
distinct from the renounced sentinel (null) and not a well-formed
Solana address — and downstream scoring applies to it the full,
nonzero −10 ownership deduction, the same as for a real owner address,
distinguished only by the dedicated "ownership status unknown" risk
statement. -/
theorem C9_amended_sentinel :
    (∀ po : ProviderOutcomes, po.goplus = none → po.solOwnership = none →
      (checkToken Network.solana po).scoredOwnerOf =
        some (some "SOLANA_OWNER_UNKNOWN")) ∧
    (some "SOLANA_OWNER_UNKNOWN" ≠ (none : Option String)) ∧
    isValidSolanaAddress "SOLANA_OWNER_UNKNOWN" = false ∧
    (∀ (sd : SecurityData) (vd : Option VerificationStatus) (ha : HolderAnalysis)
      (s : String), sd.owner_address = some "SOLANA_OWNER_UNKNOWN" →
      s ≠ "" → s ≠ zeroAddress →
      (calculateRiskScore sd vd ha).score =
        (calculateRiskScore { sd with owner_address := some s } vd ha).score ∧
      scoreAfterOwner sd = scoreAfterMintable sd - 10 ∧
      RiskMsg.ownershipUnknown ∈ (calculateRiskScore sd vd ha).risks) := by
  refine ⟨?_, by simp, by decide, ?_⟩
  · intro po hg hso
    rcases po with ⟨exp, src, gp, dex, so⟩
    simp only at hg hso
    subst hg
    subst hso
    simp [checkToken, ScanOutcome.scoredOwnerOf, ScanOutcome.securityDataOf,
      solanaFallbackSecurityData]
  · intro sd vd ha s hown hs1 hs2
    have hc1 : ownerDeductCond sd.owner_address = true := by
      rw [hown]; decide
    have hc2 : ownerDeductCond (some s) = true := by
      simp [ownerDeductCond, hs1, hs2]
    refine ⟨?_, ?_, ?_⟩
    · simp [calculateRiskScore, scoreFinal, scoreAfterHolderCount,
        scoreAfterVerification, scoreAfterHolders, scoreAfterProxy, scoreAfterTax,
        scoreAfterBlacklist, scoreAfterReclaim, scoreAfterOwner,
        scoreAfterMintable, scoreAfterHoneypot, hc1, hc2]
    · unfold scoreAfterOwner
      rw [if_pos hc1]
    · simp [calculateRiskScore, riskStatements, hc1, hown]
      exact Or.inl (by decide)

/-- Witness instantiating the amended claim C9 at the concrete
all-providers-missing scan and at the synthesized sentinel record. -/
theorem C9_amended_witness :
    (checkToken Network.solana poAllMiss).scoredOwnerOf =
      some (some "SOLANA_OWNER_UNKNOWN") ∧
    (calculateRiskScore solanaSentinelSD none
        (analyzeHolderConcentration [])).score =
      (calculateRiskScore solanaRealOwnerSD none
        (analyzeHolderConcentration [])).score :=
  ⟨C9_amended_sentinel.1 poAllMiss rfl rfl,
    (C9_amended_sentinel.2.2.2 solanaSentinelSD none
        (analyzeHolderConcentration [])
        "9xQeWvG816bUx9EPjHmaT23yvVM2ZWbrrpZb9PusVFin" rfl
        (by decide) (by decide)).1⟩

/-! ### Claim C10 -/

/-- On the Solana fallback path the synthesized record can lose at
most the mintable (−15), ownership (−10) and freeze-as-blacklist
(−20) deductions, so the running score never drops below 55. -/
theorem solanaFallback_score_ge (ti : TokenInfo) (so : Option SolanaOwnership) :
    55 ≤ scoreFinal (solanaFallbackSecurityData ti so) none
      (analyzeHolderConcentration []) := by
  rcases so with _ | ⟨ma, fa, dec, sup⟩
  · norm_num [scoreFinal, scoreAfterHolderCount, scoreAfterVerification,
      scoreAfterHolders, scoreAfterProxy, scoreAfterTax, scoreAfterBlacklist,
      scoreAfterReclaim, scoreAfterOwner, scoreAfterMintable, scoreAfterHoneypot,
      solanaFallbackSecurityData, analyzeHolderConcentration, ownerDeductCond,
      zeroAddress,
      (by decide : ¬ (("0" : String) = "1")),
      (by decide : ¬ (("SOLANA_OWNER_UNKNOWN" : String) = "")),
      (by decide : ¬ (("SOLANA_OWNER_UNKNOWN" : String) =
        "0x0000000000000000000000000000000000000000"))]
  · rcases ma with _ | a
    · rcases fa with _ | f <;>
        norm_num [scoreFinal, scoreAfterHolderCount, scoreAfterVerification,
          scoreAfterHolders, scoreAfterProxy, scoreAfterTax, scoreAfterBlacklist,
          scoreAfterReclaim, scoreAfterOwner, scoreAfterMintable,
          scoreAfterHoneypot, solanaFallbackSecurityData,
          analyzeHolderConcentration, ownerDeductCond,
          (by decide : ¬ (("0" : String) = "1"))] <;>
        split_ifs <;> omega
    · rcases fa with _ | f <;>
        by_cases hc : ownerDeductCond (some a) = true <;>
        norm_num [scoreFinal, scoreAfterHolderCount, scoreAfterVerification,
          scoreAfterHolders, scoreAfterProxy, scoreAfterTax, scoreAfterBlacklist,
          scoreAfterReclaim, scoreAfterOwner, scoreAfterMintable,
          scoreAfterHoneypot, solanaFallbackSecurityData,
          analyzeHolderConcentration, hc,
          (by decide : ¬ (("0" : String) = "1"))] <;>
        split_ifs <;> omega

/-- Claim C10: every Solana fallback scan (GoPlus miss) fixes
honeypot, taxes, proxy, reclaim-ownership to benign sentinels and
holder count / LP supply to the NaN-parsing `N/A` sentinel, passes a
null verification object (no ±5) and an unavailable holder analysis,
and therefore always scores at least 55 — the level is never
`danger`. -/
theorem C10_solana_fallback_invariant (po : ProviderOutcomes)
    (hg : po.goplus = none) :
    (checkToken Network.solana po).verificationOf = some none ∧
    (∀ sd, (checkToken Network.solana po).securityDataOf = some sd →
      sd.is_honeypot = "0" ∧ sd.buy_tax = some 0 ∧ sd.sell_tax = some 0 ∧
      sd.is_proxy = "0" ∧ sd.can_take_back_ownership = "0" ∧
      sd.holder_count = some none ∧ sd.lp_total_supply = some none ∧
      sd.holders = []) ∧
    (∀ ha, (checkToken Network.solana po).holderConcentrationOf = some ha →
      ha.available = false) ∧
    (∀ ra, (checkToken Network.solana po).riskAssessmentOf = some ra →
      55 ≤ ra.score ∧ ra.level ≠ RiskLevel.danger) := by
  rcases po with ⟨exp, src, gp, dex, so⟩
  simp only at hg
  subst hg
  refine ⟨?_, ?_, ?_, ?_⟩
  · simp [checkToken, ScanOutcome.verificationOf]
  · intro sd h
    simp [checkToken, ScanOutcome.securityDataOf] at h
    subst h
    simp [solanaFallbackSecurityData]
  · intro ha h
    simp [checkToken, ScanOutcome.holderConcentrationOf,
      solanaFallbackSecurityData] at h
    subst h
    rfl
  · intro ra h
    have hH : ∀ (t : TokenInfo) (o : Option SolanaOwnership),
        (solanaFallbackSecurityData t o).holders = [] := fun t o => rfl
    simp [checkToken, ScanOutcome.riskAssessmentOf, hH] at h
    subst h
    have hge := solanaFallback_score_ge
      (solanaFallbackTokenInfo
        (preMergeTokenInfo Network.solana
          { explorer := exp
            sourceCode := src
            goplus := none
            dex := dex
            solOwnership := so }) dex so) so
    constructor
    · simp only [calculateRiskScore]
      omega
    · simp only [calculateRiskScore, levelOf]
      split_ifs with h1 h2 <;> first | (exfalso; omega) | simp

/-- Witness instantiating claim C10 at the all-providers-missing
Solana scan. -/
theorem C10_witness :
    (checkToken Network.solana poAllMiss).verificationOf = some none ∧
    ∀ ra, (checkToken Network.solana poAllMiss).riskAssessmentOf = some ra →
      55 ≤ ra.score ∧ ra.level ≠ RiskLevel.danger :=
  ⟨(C10_solana_fallback_invariant poAllMiss rfl).1,
    (C10_solana_fallback_invariant poAllMiss rfl).2.2.2⟩

end TokenScanner
